import Mathlib

/-!
Shallow embedding of the `ai-chat` terminal client persistence layer and
command interpreter (`src/database.py`, `src/chat_cli.py`).

Modelling conventions:
* The sqlite tables are Lean lists of row structures kept in rowid
  (insertion) order; `AUTOINCREMENT` columns are modelled by explicit
  `next…Id` counters starting at 1, as sqlite does.
* `datetime` values are modelled as `Nat` ticks: the code only ever
  compares them (ISO-8601 strings order-embed into naturals).
* A `SELECT … ORDER BY k` query guarantees only that its result is some
  permutation of the matching rows that is sorted by `k`; when `k` is not
  unique, the relative order of equal keys is not specified by sqlite.
  Such queries are therefore embedded as relations between the table and
  the possible result lists.  A `SELECT` without `ORDER BY` on a plain
  table scan is embedded as the rowid-order enumeration.
* The Python sqlite3 module leaves `PRAGMA foreign_keys` at its default
  `OFF`, so the `FOREIGN KEY` clauses declared in `initialize_database`
  are not enforced: inserts referencing absent rows succeed.
* Store operations that the spec says may fail are given
  `Except DBError` results; the bodies return `.ok` exactly where the
  Python functions raise nothing.
-/

namespace AIChat

/-- Python `s.startswith(p)` on character sequences. -/
def strStarts (s p : String) : Bool := p.data.isPrefixOf s.data

/-- Python `s[n:]` (equivalently `s.split(" ", 1)[1]` when the first space
of `s` sits at index `n - 1`). -/
def strDropChars (s : String) (n : Nat) : String := ⟨s.data.drop n⟩

/-- Python `s.lower()` restricted to the ASCII range the code compares. -/
def pyLower (s : String) : String := ⟨s.data.map Char.toLower⟩

/-- Python `s.strip()`. -/
def pyStrip (s : String) : String :=
  ⟨((s.data.dropWhile Char.isWhitespace).reverse.dropWhile Char.isWhitespace).reverse⟩

/-- Value of a decimal digit character, if it is one. -/
def digitVal (c : Char) : Option Nat :=
  if '0' ≤ c ∧ c ≤ '9' then some (c.toNat - '0'.toNat) else none

/-- Accumulating decimal parse over a character list. -/
def parseNatChars : List Char → Option Nat → Option Nat
  | [], acc => acc
  | c :: cs, acc =>
    match digitVal c, acc with
    | some d, some a => parseNatChars cs (some (a * 10 + d))
    | some d, none => parseNatChars cs (some d)
    | none, _ => none

/-- Python `int(s)` on the canonical non-negative decimal literals used for
session ids; any non-digit input raises `ValueError`, modelled as `none`. -/
def pyInt? (s : String) : Option Nat := parseNatChars s.data none

/-- Python truthiness of `self.current_session_id` (`None` and `0` are
falsy; stored ids start at 1). -/
def optTruthy : Option Nat → Bool
  | none => false
  | some n => n != 0

/-- Mirror of the `ChatMessage` dataclass in `database.py`. -/
structure ChatMessage where
  role : String
  content : String
  timestamp : Nat
  model : String
deriving DecidableEq, Repr

/-- Mirror of the `ChatSession` dataclass in `database.py`. -/
structure ChatSession where
  id : Nat
  start_time : Nat
  current_model : String
  messages : List ChatMessage
deriving DecidableEq, Repr

/-- A row of the `models` table (`name` carries a UNIQUE constraint). -/
structure ModelRow where
  id : Nat
  name : String
  description : String
deriving DecidableEq, Repr

/-- A row of the `chat_sessions` table. -/
structure SessionRow where
  id : Nat
  start_time : Nat
  current_model : String
  title : String
  description : String
deriving DecidableEq, Repr

/-- A row of the `chat_messages` table. -/
structure MessageRow where
  id : Nat
  session_id : Nat
  timestamp : Nat
  role : String
  content : String
  model : String
deriving DecidableEq, Repr

/-- The durable store: the three tables in rowid order plus the
AUTOINCREMENT counters. -/
structure DB where
  models : List ModelRow
  sessions : List SessionRow
  messages : List MessageRow
  nextModelId : Nat
  nextSessionId : Nat
  nextMessageId : Nat
deriving DecidableEq, Repr

/-- State of the store right after `initialize_database` on a fresh file. -/
def emptyDB : DB := ⟨[], [], [], 1, 1, 1⟩

/-- Error taxonomy of the store contract in the spec (§7). -/
inductive DBError where
  | notFound
  | constraint
deriving DecidableEq, Repr

/-- `DatabaseManager.insert_model`: `INSERT INTO models`; a duplicate name
violates the UNIQUE constraint, and the raised `IntegrityError` is caught
and reported as a warning, leaving the table unchanged. -/
def insert_model (db : DB) (name : String) (description : String) : DB :=
  if db.models.any (fun r => r.name == name) then db
  else
    { db with
      models := db.models ++ [⟨db.nextModelId, name, description⟩]
      nextModelId := db.nextModelId + 1 }

/-- `DatabaseManager.get_all_models`: `SELECT name, description FROM models`
(no ORDER BY — rowid-order table scan). -/
def get_all_models (db : DB) : List (String × String) :=
  db.models.map fun r => (r.name, r.description)

/-- `DatabaseManager.create_session`: inserts a session stamped `now` and
returns `cursor.lastrowid`. -/
def create_session (db : DB) (now : Nat) (model title description : String) :
    DB × Nat :=
  ({ db with
      sessions := db.sessions ++ [⟨db.nextSessionId, now, model, title, description⟩]
      nextSessionId := db.nextSessionId + 1 },
    db.nextSessionId)

/-- The header `SELECT … FROM chat_sessions WHERE id = ?` of
`DatabaseManager.get_session`. -/
def get_session_header (db : DB) (sid : Nat) : Option SessionRow :=
  db.sessions.find? (fun s => s.id == sid)

/-- The rows of `chat_messages` matching `WHERE session_id = ?`, in rowid
order. -/
def sessionMessages (db : DB) (sid : Nat) : List MessageRow :=
  db.messages.filter (fun m => m.session_id == sid)

/-- Sortedness delivered by `ORDER BY timestamp` (non-strict: equal
timestamps may sit in either relative order). -/
def orderedByTimestamp (rows : List MessageRow) : Prop :=
  rows.Pairwise (fun a b => a.timestamp ≤ b.timestamp)

instance (rows : List MessageRow) : Decidable (orderedByTimestamp rows) :=
  inferInstanceAs (Decidable (rows.Pairwise _))

/-- Result relation of the message query of `get_session`: any
timestamp-sorted permutation of the rows of the session. -/
def get_session_rows_rel (db : DB) (sid : Nat) (rows : List MessageRow) : Prop :=
  rows.Perm (sessionMessages db sid) ∧ orderedByTimestamp rows

/-- Projection of a stored row into the `ChatMessage` dataclass, as the
list comprehension in `get_session` does (the rowid is dropped). -/
def rowToChatMessage (m : MessageRow) : ChatMessage :=
  ⟨m.role, m.content, m.timestamp, m.model⟩

/-- `DatabaseManager.get_session` as a relation between the store and its
possible results: `none` when the header lookup finds nothing, otherwise
the header fields plus the projected, timestamp-ordered message rows. -/
def get_session_rel (db : DB) (sid : Nat) (res : Option ChatSession) : Prop :=
  match get_session_header db sid with
  | none => res = none
  | some s =>
    ∃ rows, get_session_rows_rel db sid rows ∧
      res = some ⟨s.id, s.start_time, s.current_model, rows.map rowToChatMessage⟩

/-- Tuple shape returned by `get_all_sessions`. -/
def sessionTuple (s : SessionRow) : Nat × Nat × String × String :=
  (s.id, s.start_time, s.current_model, s.title)

/-- `DatabaseManager.get_all_sessions` as a result relation: any
permutation of the projected session rows sorted by `start_time`
descending (`ORDER BY start_time DESC`). -/
def get_all_sessions_rel (db : DB) (out : List (Nat × Nat × String × String)) : Prop :=
  out.Perm (db.sessions.map sessionTuple) ∧
    out.Pairwise (fun a b => b.2.1 ≤ a.2.1)

/-- Store change performed by `DatabaseManager.add_message`: the INSERT
appends a row for any `session_id`, because the declared FOREIGN KEY is
not enforced under the sqlite default `foreign_keys = OFF`. -/
def add_message_db (db : DB) (sid : Nat) (msg : ChatMessage) : DB :=
  { db with
    messages := db.messages ++
      [⟨db.nextMessageId, sid, msg.timestamp, msg.role, msg.content, msg.model⟩]
    nextMessageId := db.nextMessageId + 1 }

/-- `DatabaseManager.add_message`: always succeeds (no existence check on
the session, no enforced constraint). -/
def add_message (db : DB) (sid : Nat) (msg : ChatMessage) : Except DBError DB :=
  .ok (add_message_db db sid msg)

/-- Store change of `DatabaseManager.update_session_model`: `UPDATE
chat_sessions SET current_model = ? WHERE id = ?` (zero matched rows is a
silent success). -/
def update_session_model_db (db : DB) (sid : Nat) (model : String) : DB :=
  { db with
    sessions := db.sessions.map fun s =>
      if s.id == sid then { s with current_model := model } else s }

/-- `DatabaseManager.update_session_model`: never raises. -/
def update_session_model (db : DB) (sid : Nat) (model : String) :
    Except DBError DB :=
  .ok (update_session_model_db db sid model)

/-- Store change of `DatabaseManager.update_session_title`. -/
def update_session_title_db (db : DB) (sid : Nat) (title : String) : DB :=
  { db with
    sessions := db.sessions.map fun s =>
      if s.id == sid then { s with title := title } else s }

/-- `DatabaseManager.update_session_title`: never raises. -/
def update_session_title (db : DB) (sid : Nat) (title : String) :
    Except DBError DB :=
  .ok (update_session_title_db db sid title)

/-- `DatabaseManager.delete_session`: deletes the messages of the session, then
the session row. -/
def delete_session (db : DB) (sid : Nat) : DB :=
  { db with
    messages := db.messages.filter (fun m => !(m.session_id == sid))
    sessions := db.sessions.filter (fun s => !(s.id == sid)) }

/-- The mutable interpreter state in `ChatCLI`: `current_model` and
`current_session_id`. -/
structure CLIState where
  current_model : String
  current_session_id : Option Nat
deriving DecidableEq, Repr

/-- `self.current_session_id` when it is truthy (Python `if
self.current_session_id:`). -/
def activeSession (st : CLIState) : Option Nat :=
  match st.current_session_id with
  | some n => if n != 0 then some n else none
  | none => none

/-- Observable console events of `ChatCLI` (rich-text rendering is outside
the core; each constructor records one `console.print`/table/panel). -/
inductive Output where
  | modelsTable (rows : List (String × String))
  | switchedModel (m : String)
  | invalidModel (m : String)
  | createdSession (id : Nat)
  | sessionsTable
  | switchedSession (id : Nat)
  | displayedHistory (id : Nat)
  | sessionNotFound (id : Nat)
  | invalidSessionId
  | renamedSession (t : String)
  | renameError
  | deletedSession (id : Nat)
  | switchedToNewSession (id : Nat)
  | deleteCanceled
  | helpText
  | unknownCommand
  | assistantPanel (r : String)
  | failedResponse
  | turnError
deriving DecidableEq, Repr

/-- Result of one `ChatCLI.process_command` call: the returned `running`
flag, the interpreter state, the store, and the console events. -/
structure ProcResult where
  running : Bool
  st : CLIState
  db : DB
  out : List Output
deriving DecidableEq, Repr

/-- `ChatCLI.process_command`.  `promptAnswer` stands for the one
`Prompt.ask` answer a branch may read (the optional title for
`/new_session`, the confirmation for `/delete_session`); `now` is the
clock value used if a session gets created. -/
def process_command (st : CLIState) (db : DB) (command : String)
    (promptAnswer : String) (now : Nat) : ProcResult :=
  if command == "/exit" then ⟨false, st, db, []⟩
  else if command == "/list_models" then
    ⟨true, st, db, [.modelsTable (get_all_models db)]⟩
  else if strStarts command "/switch_model " then
    let model := strDropChars command 14
    if (get_all_models db).any (fun p => p.1 == model) then
      let db' := match activeSession st with
        | some sid => update_session_model_db db sid model
        | none => db
      ⟨true, { st with current_model := model }, db', [.switchedModel model]⟩
    else ⟨true, st, db, [.invalidModel model]⟩
  else if command == "/new_session" then
    let r := create_session db now st.current_model promptAnswer ""
    ⟨true, { st with current_session_id := some r.2 }, r.1, [.createdSession r.2]⟩
  else if command == "/list_sessions" then
    ⟨true, st, db, [.sessionsTable]⟩
  else if strStarts command "/change_session " then
    match pyInt? (strDropChars command 16) with
    | some sid =>
      match get_session_header db sid with
      | some s =>
        ⟨true, ⟨s.current_model, some sid⟩, db,
          [.switchedSession sid, .displayedHistory sid]⟩
      | none => ⟨true, st, db, [.sessionNotFound sid]⟩
    | none => ⟨true, st, db, [.invalidSessionId]⟩
  else if strStarts command "/rename_session " then
    let new_title := pyStrip (strDropChars command 16)
    if new_title != "" then
      match activeSession st with
      | some sid =>
        ⟨true, st, update_session_title_db db sid new_title,
          [.renamedSession new_title]⟩
      | none => ⟨true, st, db, [.renameError]⟩
    else ⟨true, st, db, [.renameError]⟩
  else if strStarts command "/delete_session " then
    match pyInt? (strDropChars command 16) with
    | some sid =>
      -- Python: `if confirm.lower() == "yes" or "y":` — the right operand
      -- is the non-empty literal "y", which is truthy, so the whole
      -- disjunction is true whatever the answer was.
      if (pyLower promptAnswer == "yes") || ("y" != "") then
        let db1 := delete_session db sid
        if st.current_session_id == some sid then
          let r := create_session db1 now st.current_model "New Session" ""
          ⟨true, { st with current_session_id := some r.2 }, r.1,
            [.deletedSession sid, .switchedToNewSession r.2]⟩
        else ⟨true, st, db1, [.deletedSession sid]⟩
      else ⟨true, st, db, [.deleteCanceled]⟩
    | none => ⟨true, st, db, [.invalidSessionId]⟩
  else if command == "/help" then ⟨true, st, db, [.helpText]⟩
  else ⟨true, st, db, [.unknownCommand]⟩

/-- The user message built in step 1 of a chat turn in `ChatCLI.run`. -/
def user_message (input : String) (now1 : Nat) (model : String) : ChatMessage :=
  ⟨"user", input, now1, model⟩

/-- One plain (non-command, non-empty) chat turn of `ChatCLI.run`: persist
the user message, reload the transcript for the completion collaborator,
then either persist and show the assistant reply or report a failure.
`response` is the value of `call_ai_api` (`none` when the API call raised;
Python then tests `if response:`, so an empty string also fails the turn). -/
def run_turn (st : CLIState) (db : DB) (input : String) (now1 now2 : Nat)
    (response : Option String) : DB × List Output :=
  match st.current_session_id with
  | none => (db, [.turnError])
  | some sid =>
    let db1 := add_message_db db sid (user_message input now1 st.current_model)
    match response with
    | some r =>
      if r != "" then
        (add_message_db db1 sid ⟨"assistant", r, now2, st.current_model⟩,
          [.assistantPanel r])
      else (db1, [.failedResponse])
    | none => (db1, [.failedResponse])

/-- A sequence of `add_message` store changes for one session (the
`AppendMessage` calls of the spec; each call succeeds, see `add_message`). -/
def appendAll (db : DB) (sid : Nat) (msgs : List ChatMessage) : DB :=
  msgs.foldl (fun d m => add_message_db d sid m) db

/-- The ordering the spec claims for retrieved messages: by timestamp
ascending with ties broken by the store-assigned row id. -/
def tieBrokenById (rows : List MessageRow) : Prop :=
  rows.Pairwise (fun a b =>
    a.timestamp < b.timestamp ∨ (a.timestamp = b.timestamp ∧ a.id < b.id))

instance (rows : List MessageRow) : Decidable (tieBrokenById rows) :=
  inferInstanceAs (Decidable (rows.Pairwise _))

instance (db : DB) (sid : Nat) (rows : List MessageRow) :
    Decidable (get_session_rows_rel db sid rows) :=
  inferInstanceAs (Decidable (_ ∧ _))

instance (db : DB) (out : List (Nat × Nat × String × String)) :
    Decidable (get_all_sessions_rel db out) :=
  inferInstanceAs (Decidable (_ ∧ _))

/-- Session id and dataclass view of a stored message row, forgetting the
row id. -/
def msgProj (r : MessageRow) : Nat × ChatMessage := (r.session_id, rowToChatMessage r)

/-- The rows of the `models` table carrying a given name. -/
def modelEntries (db : DB) (n : String) : List ModelRow :=
  db.models.filter (fun r => r.name == n)

/-- A sequence of `create_session` calls from given (clock, model, title)
triples. -/
def create_all (db : DB) (specs : List (Nat × String × String)) : DB :=
  specs.foldl (fun d sp => (create_session d sp.1 sp.2.1 sp.2.2 "").1) db

/-- The mutable payload of a session row: start time, model, title. -/
def sessionTriple (s : SessionRow) : Nat × String × String :=
  (s.start_time, s.current_model, s.title)

/-- A store holding one registered model and one session (id 1, started at
tick 10). -/
def sampleDB : DB := (create_session (insert_model emptyDB "m" "") 10 "m" "t" "").1

/-- A store whose single session holds two messages with equal timestamps
(appended in the order "a" then "b"), exercising coarse clock resolution. -/
def c1db : DB :=
  appendAll (create_session (insert_model emptyDB "m" "") 0 "m" "" "").1 1
    [⟨"user", "a", 5, "m"⟩, ⟨"user", "b", 5, "m"⟩]

/-- The store after `add_message` targeting the absent session id 999. -/
def c4db : DB := add_message_db emptyDB 999 ⟨"user", "hi", 5, "m"⟩

/-- After `insert_model`, some row carries the inserted name. -/
theorem insert_model_name_present (db : DB) (n d : String) :
    (insert_model db n d).models.any (fun r => r.name == n) = true := by
  unfold insert_model
  cases hc : db.models.any (fun r => r.name == n) with
  | true => simpa using hc
  | false => simp [hc, List.any_append]

/-- `insert_model` leaves the store untouched when the name is taken (the
UNIQUE violation is caught and only logged). -/
theorem insert_model_of_present (db : DB) (n d : String)
    (h : db.models.any (fun r => r.name == n) = true) :
    insert_model db n d = db := by
  simp [insert_model, h]

/-- Appending messages only appends rows: the (session id, dataclass)
projection of the messages table grows by exactly the appended payloads. -/
theorem appendAll_msgProj (db : DB) (sid : Nat) (msgs : List ChatMessage) :
    (appendAll db sid msgs).messages.map msgProj
      = db.messages.map msgProj ++ msgs.map (fun m => (sid, m)) := by
  induction msgs generalizing db with
  | nil => simp [appendAll]
  | cons m ms ih =>
    have hstep : appendAll db sid (m :: ms) = appendAll (add_message_db db sid m) sid ms := rfl
    rw [hstep, ih]
    simp [add_message_db, msgProj, rowToChatMessage]

/-- Creating sessions only appends rows: the (start, model, title)
projection of the sessions table grows by exactly the given triples. -/
theorem create_all_sessionTriple (db : DB) (specs : List (Nat × String × String)) :
    (create_all db specs).sessions.map sessionTriple
      = db.sessions.map sessionTriple ++ specs := by
  induction specs generalizing db with
  | nil => simp [create_all]
  | cons sp sps ih =>
    have hstep : create_all db (sp :: sps)
        = create_all (create_session db sp.1 sp.2.1 sp.2.2 "").1 sps := rfl
    rw [hstep, ih]
    simp [create_session, sessionTriple]

/-- C1 counterexample: on a session holding two equal-timestamp messages
(appended "a" then "b"), the list with "b" before "a" is a legitimate
result of the `ORDER BY timestamp` query in `get_session` — the code imposes no
row-id tie-break, so the claimed stable total order is not guaranteed. -/
theorem get_session_tie_order_not_fixed :
    get_session_rows_rel c1db 1
      [⟨2, 1, 5, "user", "b", "m"⟩, ⟨1, 1, 5, "user", "a", "m"⟩] ∧
    get_session_rel c1db 1
      (some ⟨1, 0, "m", [⟨"user", "b", 5, "m"⟩, ⟨"user", "a", 5, "m"⟩]⟩) ∧
    ¬ tieBrokenById [⟨2, 1, 5, "user", "b", "m"⟩, ⟨1, 1, 5, "user", "a", "m"⟩] ∧
    [(⟨2, 1, 5, "user", "b", "m"⟩ : MessageRow), ⟨1, 1, 5, "user", "a", "m"⟩]
      ≠ sessionMessages c1db 1 := by
  refine ⟨by decide, ?_, by decide, by decide⟩
  exact ⟨[⟨2, 1, 5, "user", "b", "m"⟩, ⟨1, 1, 5, "user", "a", "m"⟩],
    by decide, rfl⟩

/-- Claim C1 (amended): after any sequence of `AppendMessage` calls on one
session, every possible `GetSession` message list is sorted by timestamp
ascending, is a permutation of the stored rows of the session, and contains
every appended message; the relative order of equal timestamps is not
fixed by the code. -/
theorem get_session_sorted_after_appends (db : DB) (sid : Nat)
    (msgs : List ChatMessage) (rows : List MessageRow)
    (h : get_session_rows_rel (appendAll db sid msgs) sid rows) :
    orderedByTimestamp rows ∧
    rows.Perm (sessionMessages (appendAll db sid msgs) sid) ∧
    msgs ⊆ rows.map rowToChatMessage := by
  refine ⟨h.2, h.1, ?_⟩
  intro m hm
  have hproj : (sid, m) ∈ (appendAll db sid msgs).messages.map msgProj := by
    rw [appendAll_msgProj]
    exact List.mem_append_right _ (List.mem_map.mpr ⟨m, hm, rfl⟩)
  rcases List.mem_map.mp hproj with ⟨r, hr, hpr⟩
  have h1 : r.session_id = sid := congrArg Prod.fst hpr
  have h2 : rowToChatMessage r = m := congrArg Prod.snd hpr
  have hmem : r ∈ sessionMessages (appendAll db sid msgs) sid :=
    List.mem_filter.mpr ⟨hr, by simp [h1]⟩
  exact List.mem_map.mpr ⟨r, h.1.mem_iff.mpr hmem, h2⟩

/-- Witness for the amended C1 theorem at a concrete store and result. -/
theorem get_session_sorted_after_appends_witness :
    orderedByTimestamp
      [⟨1, 1, 5, "user", "a", "m"⟩, ⟨2, 1, 5, "user", "b", "m"⟩] ∧
    List.Perm [(⟨1, 1, 5, "user", "a", "m"⟩ : MessageRow), ⟨2, 1, 5, "user", "b", "m"⟩]
      (sessionMessages (appendAll (create_session (insert_model emptyDB "m" "") 0 "m" "" "").1 1
        [⟨"user", "a", 5, "m"⟩, ⟨"user", "b", 5, "m"⟩]) 1) ∧
    [(⟨"user", "a", 5, "m"⟩ : ChatMessage), ⟨"user", "b", 5, "m"⟩]
      ⊆ [(⟨1, 1, 5, "user", "a", "m"⟩ : MessageRow), ⟨2, 1, 5, "user", "b", "m"⟩].map rowToChatMessage :=
  get_session_sorted_after_appends
    (create_session (insert_model emptyDB "m" "") 0 "m" "" "").1 1
    [⟨"user", "a", 5, "m"⟩, ⟨"user", "b", 5, "m"⟩]
    [⟨1, 1, 5, "user", "a", "m"⟩, ⟨2, 1, 5, "user", "b", "m"⟩]
    (by decide)

/-- Claim C2 (code bug): the reference confirmation test
`confirm.lower() == "yes" or "y"` is always truthy, so answering "no"
still deletes the session and reports success instead of the specified
cancellation no-op. -/
theorem delete_declined_confirmation_still_deletes :
    (pyLower "no" == "yes") = false ∧
    sampleDB.sessions = [⟨1, 10, "m", "t", ""⟩] ∧
    (process_command ⟨"m", none⟩ sampleDB "/delete_session 1" "no" 20).db.sessions = [] ∧
    (process_command ⟨"m", none⟩ sampleDB "/delete_session 1" "no" 20).out
      = [Output.deletedSession 1] := by
  exact ⟨by decide, by decide, by decide, by decide⟩

/-- C3 counterexample: updating the model or title of the absent session
id 5 on an empty store returns success (`.ok`) with the store unchanged,
not the `NotFoundError` the claim requires. -/
theorem update_missing_session_returns_ok :
    get_session_header emptyDB 5 = none ∧
    update_session_model emptyDB 5 "m" = Except.ok emptyDB ∧
    update_session_model emptyDB 5 "m" ≠ Except.error DBError.notFound ∧
    update_session_title emptyDB 5 "t" = Except.ok emptyDB ∧
    update_session_title emptyDB 5 "t" ≠ Except.error DBError.notFound :=
  ⟨rfl, rfl, fun h => Except.noConfusion h, rfl, fun h => Except.noConfusion h⟩

/-- Claim C3 (amended): on a session id absent from the store, both
`UpdateSessionModel` and `UpdateSessionTitle` succeed as no-ops, leaving
the store unchanged (the UPDATE matches zero rows and raises nothing). -/
theorem update_missing_session_noop (db : DB) (sid : Nat) (m t : String)
    (h : get_session_header db sid = none) :
    update_session_model db sid m = Except.ok db ∧
    update_session_title db sid t = Except.ok db := by
  have hall : ∀ s ∈ db.sessions, (s.id == sid) = false := by
    intro s hs
    have hns := List.find?_eq_none.mp h s hs
    cases hval : s.id == sid
    · rfl
    · exact absurd hval hns
  have hmap : ∀ (f : SessionRow → SessionRow),
      (db.sessions.map fun s => if s.id == sid then f s else s) = db.sessions := by
    intro f
    have hcongr : (db.sessions.map fun s => if s.id == sid then f s else s)
        = db.sessions.map id :=
      List.map_congr_left (fun s hs => by simp [hall s hs])
    simpa using hcongr
  constructor
  · show Except.ok (update_session_model_db db sid m) = Except.ok db
    unfold update_session_model_db
    rw [hmap]
  · show Except.ok (update_session_title_db db sid t) = Except.ok db
    unfold update_session_title_db
    rw [hmap]

/-- Witness for the amended C3 theorem: session 2 is absent from the
one-session store. -/
theorem update_missing_session_noop_witness :
    get_session_header sampleDB 2 = none ∧
    (update_session_model sampleDB 2 "x" = Except.ok sampleDB ∧
      update_session_title sampleDB 2 "y" = Except.ok sampleDB) :=
  ⟨by decide, update_missing_session_noop sampleDB 2 "x" "y" (by decide)⟩

/-- Claim C4 (code bug): `add_message` on the absent session id 999
succeeds and stores an orphaned row — the declared FOREIGN KEY is not
enforced because the sqlite `foreign_keys` pragma defaults to OFF — instead
of failing with the `NotFoundError` the claim requires. -/
theorem add_message_missing_session_succeeds :
    get_session_header emptyDB 999 = none ∧
    add_message emptyDB 999 ⟨"user", "hi", 5, "m"⟩ = Except.ok c4db ∧
    add_message emptyDB 999 ⟨"user", "hi", 5, "m"⟩ ≠ Except.error DBError.notFound ∧
    c4db.messages = [⟨1, 999, 5, "user", "hi", "m"⟩] ∧
    sessionMessages c4db 999 = [⟨1, 999, 5, "user", "hi", "m"⟩] :=
  ⟨rfl, rfl, fun h => Except.noConfusion h, rfl, rfl⟩

/-- Claim C5: `DeleteSession` cascades — afterwards the header lookup is
not-found, any `GetSession` result is `none`, and no message row with
that session id remains in the store. -/
theorem delete_session_cascades (db : DB) (sid : Nat) (res : Option ChatSession)
    (hres : get_session_rel (delete_session db sid) sid res) :
    res = none ∧
    get_session_header (delete_session db sid) sid = none ∧
    sessionMessages (delete_session db sid) sid = [] := by
  have h1 : get_session_header (delete_session db sid) sid = none := by
    apply List.find?_eq_none.mpr
    intro s hs
    have hmem := (List.mem_filter.mp hs).2
    simp only [Bool.not_eq_true'] at hmem
    simp [hmem]
  refine ⟨?_, h1, ?_⟩
  · unfold get_session_rel at hres
    rw [h1] at hres
    exact hres
  · show ((db.messages.filter fun m => !(m.session_id == sid)).filter
      fun m => m.session_id == sid) = []
    rw [List.filter_filter]
    apply List.filter_eq_nil_iff.mpr
    intro a _
    cases hval : a.session_id == sid <;> simp [hval]

/-- Witness for C5 at the one-session store, with `none` as the concrete
`GetSession` result. -/
theorem delete_session_cascades_witness :
    (none : Option ChatSession) = none ∧
    get_session_header (delete_session sampleDB 1) 1 = none ∧
    sessionMessages (delete_session sampleDB 1) 1 = [] :=
  delete_session_cascades sampleDB 1 none rfl

/-- Claim C6: registering the same model name twice is idempotent — the
second call is a no-op (the caught UNIQUE violation is a non-error) and
the models table then holds exactly one entry for the name. -/
theorem insert_model_idempotent (db : DB) (n d d' : String)
    (h : (modelEntries db n).length ≤ 1) :
    insert_model (insert_model db n d) n d' = insert_model db n d ∧
    (modelEntries (insert_model (insert_model db n d) n d') n).length = 1 := by
  have e2 : insert_model (insert_model db n d) n d' = insert_model db n d :=
    insert_model_of_present _ n d' (insert_model_name_present db n d)
  refine ⟨e2, ?_⟩
  rw [e2]
  cases hc : db.models.any (fun r => r.name == n) with
  | true =>
    rw [insert_model_of_present db n d hc]
    rcases List.any_eq_true.mp hc with ⟨x, hx, hpx⟩
    have hmem : x ∈ modelEntries db n := List.mem_filter.mpr ⟨hx, hpx⟩
    have hpos : 0 < (modelEntries db n).length :=
      List.length_pos.mpr (List.ne_nil_of_mem hmem)
    omega
  | false =>
    have hnil : db.models.filter (fun r => r.name == n) = [] :=
      List.filter_eq_nil_iff.mpr (List.any_eq_false.mp hc)
    simp [insert_model, modelEntries, hc, List.filter_append, hnil]

/-- Witness for C6 on the empty store. -/
theorem insert_model_idempotent_witness :
    (modelEntries emptyDB "m").length ≤ 1 ∧
    (insert_model (insert_model emptyDB "m" "x") "m" "y"
        = insert_model emptyDB "m" "x" ∧
      (modelEntries (insert_model (insert_model emptyDB "m" "x") "m" "y") "m").length = 1) :=
  ⟨by decide, insert_model_idempotent emptyDB "m" "x" "y" (by decide)⟩

/-- Claim C7: for any insertion order of sessions, every `ListSessions`
result is the projected session tuples sorted by start time descending,
and every created session appears in it. -/
theorem list_sessions_sorted_desc (db : DB) (specs : List (Nat × String × String))
    (out : List (Nat × Nat × String × String))
    (h : get_all_sessions_rel (create_all db specs) out) :
    out.Pairwise (fun a b => b.2.1 ≤ a.2.1) ∧
    out.Perm ((create_all db specs).sessions.map sessionTuple) ∧
    specs ⊆ out.map (fun t => t.2) := by
  refine ⟨h.2, h.1, ?_⟩
  intro sp hsp
  have hproj : sp ∈ (create_all db specs).sessions.map sessionTriple := by
    rw [create_all_sessionTriple]
    exact List.mem_append_right _ hsp
  rcases List.mem_map.mp hproj with ⟨s, hs, hts⟩
  refine List.mem_map.mpr ⟨sessionTuple s, ?_, hts⟩
  exact h.1.mem_iff.mpr (List.mem_map.mpr ⟨s, hs, rfl⟩)

/-- Witness for C7: two sessions created out of start-time order, one
sorted result. -/
theorem list_sessions_sorted_desc_witness :
    List.Pairwise (fun a b => b.2.1 ≤ a.2.1)
      [((2 : Nat), (7 : Nat), "m", "b"), (1, 5, "m", "a")] ∧
    List.Perm [((2 : Nat), (7 : Nat), "m", "b"), (1, 5, "m", "a")]
      ((create_all emptyDB [(5, "m", "a"), (7, "m", "b")]).sessions.map sessionTuple) ∧
    [((5 : Nat), "m", "a"), (7, "m", "b")]
      ⊆ [((2 : Nat), (7 : Nat), "m", "b"), (1, 5, "m", "a")].map (fun t => t.2) :=
  list_sessions_sorted_desc emptyDB [(5, "m", "a"), (7, "m", "b")]
    [(2, 7, "m", "b"), (1, 5, "m", "a")] (by decide)

/-- Claim C8: `/switch_model` with an unregistered name reports a
validation failure and changes nothing — same interpreter state, same
store (no `UpdateSessionModel` happens). -/
theorem switch_model_unknown_noop (st : CLIState) (db : DB)
    (cmd ans : String) (now : Nat) (m : String)
    (h1 : (cmd == "/exit") = false)
    (h2 : (cmd == "/list_models") = false)
    (h3 : strStarts cmd "/switch_model " = true)
    (h4 : strDropChars cmd 14 = m)
    (h5 : (get_all_models db).any (fun p => p.1 == m) = false) :
    process_command st db cmd ans now = ⟨true, st, db, [Output.invalidModel m]⟩ := by
  subst h4
  simp [process_command, h1, h2, h3, h5]

/-- Witness for C8: switching to the unregistered "nope" on a store that
only knows "m". -/
theorem switch_model_unknown_noop_witness :
    process_command ⟨"m", some 1⟩ sampleDB "/switch_model nope" "" 0
      = ⟨true, ⟨"m", some 1⟩, sampleDB, [Output.invalidModel "nope"]⟩ :=
  switch_model_unknown_noop ⟨"m", some 1⟩ sampleDB "/switch_model nope" "" 0 "nope"
    (by decide) (by decide) (by decide) (by decide) (by decide)

/-- Claim C9: when the completion collaborator fails (raises, or returns
`None` or empty content), the turn appends no assistant message, keeps the
user message persisted in step 1, and reports the failure. -/
theorem run_turn_failed_completion (st : CLIState) (db : DB) (input : String)
    (sid : Nat) (now1 now2 : Nat) (response : Option String)
    (hsid : st.current_session_id = some sid)
    (hfail : response = none ∨ response = some "") :
    run_turn st db input now1 now2 response
      = (add_message_db db sid (user_message input now1 st.current_model),
          [Output.failedResponse]) ∧
    (add_message_db db sid (user_message input now1 st.current_model)).messages
      = db.messages ++ [⟨db.nextMessageId, sid, now1, "user", input, st.current_model⟩] ∧
    (add_message_db db sid (user_message input now1 st.current_model)).messages.filter
        (fun r => r.role == "assistant")
      = db.messages.filter (fun r => r.role == "assistant") := by
  refine ⟨?_, rfl, ?_⟩
  · unfold run_turn
    rw [hsid]
    rcases hfail with hf | hf <;> subst hf <;> simp
  · show (db.messages
        ++ [(⟨db.nextMessageId, sid, now1, "user", input, st.current_model⟩ : MessageRow)]).filter
          (fun r => r.role == "assistant")
      = db.messages.filter (fun r => r.role == "assistant")
    rw [List.filter_append]
    simp

/-- Witness for C9: a failed (`none`) completion on the one-session store. -/
theorem run_turn_failed_completion_witness :
    run_turn ⟨"m", some 1⟩ sampleDB "hi" 11 12 none
      = (add_message_db sampleDB 1 (user_message "hi" 11 "m"),
          [Output.failedResponse]) ∧
    (add_message_db sampleDB 1 (user_message "hi" 11 "m")).messages
      = sampleDB.messages ++ [⟨sampleDB.nextMessageId, 1, 11, "user", "hi", "m"⟩] ∧
    (add_message_db sampleDB 1 (user_message "hi" 11 "m")).messages.filter
        (fun r => r.role == "assistant")
      = sampleDB.messages.filter (fun r => r.role == "assistant") :=
  run_turn_failed_completion ⟨"m", some 1⟩ sampleDB "hi" 1 11 12 none rfl (Or.inl rfl)

/-- Claim C10: re-registering an existing model name — even with a
different description — leaves the whole models table unchanged: the
stored description survives and every other model is untouched. -/
theorem insert_model_duplicate_preserves_table (db : DB) (n d : String)
    (h : db.models.any (fun r => r.name == n) = true) :
    insert_model db n d = db ∧
    get_all_models (insert_model db n d) = get_all_models db := by
  have e := insert_model_of_present db n d h
  exact ⟨e, by rw [e]⟩

/-- Witness for C10: re-registering "m" with a new description keeps the
old description. -/
theorem insert_model_duplicate_preserves_table_witness :
    insert_model (insert_model emptyDB "m" "old") "m" "new"
      = insert_model emptyDB "m" "old" ∧
    get_all_models (insert_model (insert_model emptyDB "m" "old") "m" "new")
      = get_all_models (insert_model emptyDB "m" "old") :=
  insert_model_duplicate_preserves_table (insert_model emptyDB "m" "old") "m" "new"
    (by decide)

end AIChat
